import Mathlib

/-!
Shallow embedding of the legalAI_Clarity backend (`main.py`) and proofs about
its claims: the text extractors for PDF and DOCX, the `/upload/` handler, the
prompt builders (including a model of `textwrap.dedent`), and the four
LLM-backed handlers with their error handling.

Library calls (pypdf, python-docx, the Gemini client) are modelled as oracle
parameters: a PDF parse yields either the exception message or the list of
per-page `extract_text()` results (`none` models a `None` return), a DOCX
parse yields either the exception message or the list of paragraph texts,
and the generation API is a function from (model, prompt) to either the
response text or the exception message.
-/

deriving instance DecidableEq for Except

/-- Python `str.strip()` uses a whitespace class; we model it with
`Char.isWhitespace`. -/
def wsChar (c : Char) : Bool := c.isWhitespace

/-- Remove leading whitespace characters (left part of Python `strip`). -/
def lstripChars (l : List Char) : List Char := l.dropWhile wsChar

/-- Remove trailing whitespace characters (right part of Python `strip`). -/
def rstripChars (l : List Char) : List Char := (l.reverse.dropWhile wsChar).reverse

/-- Python `str.strip()` on the character list: drop leading and trailing
whitespace. -/
def stripChars (l : List Char) : List Char := rstripChars (lstripChars l)

/-- Python `str.strip()` as a `String` operation. -/
def pyStrip (s : String) : String := String.mk (stripChars s.data)

/-- `fastapi.HTTPException(status_code=..., detail=...)`. -/
structure HTTPException where
  status_code : Nat
  detail : String
deriving DecidableEq, Repr

/-- Outcome of `PdfReader(io.BytesIO(content))` plus per-page
`page.extract_text()`: the exception message if parsing throws, otherwise
the pages, each carrying `extract_text()`'s result (`none` for `None`). -/
abbrev PdfParse := Except String (List (Option String))

/-- Outcome of `DocxDocument(io.BytesIO(content))`: the exception message if
parsing throws, otherwise the list of `paragraph.text` values in order. -/
abbrev DocxParse := Except String (List String)

/-- `extract_text_from_pdf` from `main.py`: on parse failure raise
`HTTPException(500, "PDF extraction error: ...")`; otherwise concatenate
`page.extract_text() or ""` over `reader.pages[:10]` and return the
`strip()`-ed text. -/
def extract_text_from_pdf (parsed : PdfParse) : Except HTTPException String :=
  match parsed with
  | .error e => .error ⟨500, "PDF extraction error: " ++ e⟩
  | .ok pages =>
      .ok (pyStrip (String.join ((pages.take 10).map (fun p => p.getD ""))))

/-- `extract_text_from_docx` from `main.py`: on parse failure raise
`HTTPException(500, "DOCX extraction error: ...")`; otherwise join with
newlines the paragraphs whose text has a non-empty `strip()`, and return
the `strip()`-ed join. -/
def extract_text_from_docx (parsed : DocxParse) : Except HTTPException String :=
  match parsed with
  | .error e => .error ⟨500, "DOCX extraction error: " ++ e⟩
  | .ok paras =>
      .ok (pyStrip (String.intercalate "\n"
        (paras.filter (fun p => pyStrip p != ""))))

/-- The uploaded multipart file as the handler sees it: `file.filename`,
`file.content_type`, and the raw bytes from `await file.read()`. -/
structure UploadedFile where
  filename : String
  content_type : String
  content : List Nat

/-- The `UploadResponse` pydantic model. -/
structure UploadResponse where
  filename : String
  extracted_text : String
  text_length : Nat
deriving DecidableEq, Repr

/-- The DOCX MIME type string checked by the handler. -/
def docxMime : String :=
  "application/vnd.openxmlformats-officedocument.wordprocessingml.document"

/-- `upload_document` from `main.py`, parametrised by the two library parse
oracles: dispatch on `file.content_type`, raise 400 for unsupported types,
raise 400 when the extracted text is empty (Python falsy check), otherwise
return `{filename, extracted_text, text_length: len(extracted_text)}`. -/
def upload_document (parsePdf : List Nat → PdfParse)
    (parseDocx : List Nat → DocxParse) (file : UploadedFile) :
    Except HTTPException UploadResponse :=
  let step : Except HTTPException String :=
    if file.content_type = "application/pdf" then
      extract_text_from_pdf (parsePdf file.content)
    else if file.content_type = docxMime then
      extract_text_from_docx (parseDocx file.content)
    else
      .error ⟨400, "Invalid file type. Only PDF and DOCX are supported for this MVP."⟩
  match step with
  | .error e => .error e
  | .ok extracted_text =>
      if extracted_text = "" then
        .error ⟨400, "Could not extract text from the document."⟩
      else
        .ok ⟨file.filename, extracted_text, extracted_text.length⟩

/-- Status code of an error response, if the result is an error. -/
def errorStatus {α : Type} : Except HTTPException α → Option Nat
  | .error e => some e.status_code
  | .ok _ => none

/-- Detail string of an error response, if the result is an error. -/
def errorDetail {α : Type} : Except HTTPException α → Option String
  | .error e => some e.detail
  | .ok _ => none

/-- The successful payload, if the result is a success. -/
def okText : Except HTTPException String → Option String
  | .ok s => some s
  | .error _ => none

/-! ### `textwrap.dedent`

CPython's `textwrap.dedent` first blanks out lines consisting solely of
spaces and tabs, then computes the longest common prefix of the leading
space/tab runs of the remaining lines that contain a non-space/tab
character, and finally removes that margin from the start of every line
that begins with it. -/

/-- The `[ \t]` character class used by `textwrap.dedent`. -/
def spTab (c : Char) : Bool := c == ' ' || c == '\t'

/-- `_whitespace_only_re.sub('', text)` per line: a non-empty line of only
spaces/tabs becomes empty. -/
def blankToEmpty (line : String) : String :=
  if !line.data.isEmpty && line.data.all spTab then "" else line

/-- Longest common prefix of two character lists (the margin-merging loop of
`textwrap.dedent`). -/
def lcp : List Char → List Char → List Char
  | x :: xs, y :: ys => if x = y then x :: lcp xs ys else []
  | _, _ => []

/-- Leading space/tab run of a line (the capture of
`_leading_whitespace_re`). -/
def lineIndent (line : String) : List Char := line.data.takeWhile spTab

/-- Whether a line contains a character other than space/tab (so that
`_leading_whitespace_re` matches it). -/
def hasContent (line : String) : Bool := line.data.any (fun c => !spTab c)

/-- The margin `textwrap.dedent` computes: the longest common prefix of the
indents of all content lines. -/
def marginOf (lines : List String) : List Char :=
  match (lines.filter hasContent).map lineIndent with
  | [] => []
  | i :: is => is.foldl lcp i

/-- Remove `margin` from the front of a character list if it is literally
there. -/
def dropExactPrefix : List Char → List Char → Option (List Char)
  | [], l => some l
  | _ :: _, [] => none
  | m :: ms, c :: cs => if m = c then dropExactPrefix ms cs else none

/-- `re.sub(r'(?m)^' + margin, '', text)` per line: strip the margin when
the line starts with it, otherwise leave the line unchanged. -/
def removeMargin (margin : List Char) (line : String) : String :=
  match dropExactPrefix margin line.data with
  | some rest => String.mk rest
  | none => line

/-- `textwrap.dedent` on the whole text, modelled line by line. -/
def dedent (text : String) : String :=
  let lines := (text.splitOn "\n").map blankToEmpty
  String.intercalate "\n" (lines.map (removeMargin (marginOf lines)))

/-! ### Request models and prompt builders -/

/-- The `ChatRequest` pydantic model. -/
structure ChatRequest where
  document_text : String
  question : String

/-- The `RewriteRequest` pydantic model. -/
structure RewriteRequest where
  clause_text : String

/-- The `PersonalizedSummaryRequest` pydantic model. -/
structure PersonalizedSummaryRequest where
  document_text : String
  user_role : String

/-- The `RiskSummaryRequest` pydantic model. -/
structure RiskSummaryRequest where
  document_text : String
  user_role : String

/-- The `ChatResponse` pydantic model. -/
structure ChatResponse where
  answer : String
deriving DecidableEq

/-- The `{"simplified_text": ...}` payload of `/rewrite_clause/`. -/
structure RewriteResponse where
  simplified_text : String
deriving DecidableEq

/-- The `{"summary": ...}` payload of `/personalized_summary/`. -/
structure SummaryResponse where
  summary : String
deriving DecidableEq

/-- The `{"risk_report": ...}` payload of `/generate_risk_summary/`. -/
structure RiskReportResponse where
  risk_report : String
deriving DecidableEq

/-- The `prompt` f-string of `chat_with_document`, including the
`textwrap.dedent` call applied in the source. -/
def chatPrompt (request : ChatRequest) : String :=
  dedent ("\n    You are a professional Legal Assistant, named the \x27Conversational Legal Twin\x27. \n    Your primary function is to simplify complex legal information and answer the user\x27s question \n    based **STRICTLY AND ONLY** on the legal document provided below.\n    \n    If you cannot find a direct answer or relevant clause in the document, state clearly: \n    \"The answer to that question could not be found in the provided document.\"\n\n    --- LEGAL DOCUMENT TEXT ---\n    "
    ++ request.document_text
    ++ "\n    --- END OF DOCUMENT ---\n\n    USER QUESTION: "
    ++ request.question ++ "\n    ")

/-- The `rewrite_prompt` f-string of `rewrite_clause` (no dedent in the
source). -/
def rewritePrompt (request : RewriteRequest) : String :=
  "\n    You are an expert Plain Language Translator. Your task is to rewrite the\n    following legal clause into simple, easy-to-understand English.\n    The rewritten text must preserve the full original legal meaning and risk, but use\n    no legal jargon.\n\n    --- ORIGINAL CLAUSE ---\n    "
    ++ request.clause_text ++ "\n    "

/-- The `summary_prompt` f-string of `personalized_summary` (no dedent in
the source). -/
def summaryPrompt (request : PersonalizedSummaryRequest) : String :=
  "\n    You are a Legal Risk Analyst. Summarize the key rights, obligations, and potential\n    risks in the legal document below, focusing **only** on the perspective of the **"
    ++ request.user_role
    ++ "**.\n    Use clear bullet points and cite the section number for each item.\n\n    --- LEGAL DOCUMENT TEXT ---\n    "
    ++ request.document_text ++ "\n    "

/-- The `risk_prompt` f-string of `generate_risk_summary` (no dedent in the
source). -/
def riskPrompt (request : RiskSummaryRequest) : String :=
  "\n    You are a high-level Contract Risk Analyst. Your task is to generate a comprehensive, \n    structured risk report for the **"
    ++ request.user_role
    ++ "** based on the document below. \n    The output must be formatted with the main title and section headings in markdown.\n\n    1. **Identify the Top 3 Financial Risks** to the "
    ++ request.user_role
    ++ ".\n    2. **Identify the Top 3 Legal/Compliance Risks** (e.g., breach of contract, loss of rights).\n    3. For each risk, cite the **relevant Section number** and provide a brief **mitigation suggestion** (e.g., \"Always pay by the 1st\").\n\n    --- LEGAL DOCUMENT TEXT ---\n    "
    ++ request.document_text ++ "\n    "

/-! ### LLM-backed handlers

`genai.Client()` and `client.models.generate_content` are modelled by an
environment: `clientOk` says whether `genai.Client()` succeeds (credentials
present and valid), and `generate model prompt` yields either the response
text or the exception message. Each handler returns its result together
with the trace of `(model, prompt)` calls it sent to the generation API, so
that call counts are part of the embedding. -/

/-- The external Gemini client as seen by the handlers. -/
structure GenAIEnv where
  clientOk : Bool
  generate : String → String → Except String String

/-- The fixed model identifier used by every handler. -/
def modelId : String := "gemini-2.5-flash"

/-- `chat_with_document` from `main.py`: 500 with a fixed detail when the
client cannot be built; otherwise one `generate_content` call on the
dedented RAG prompt, wrapping any upstream failure as a 500 whose detail
carries the exception text. -/
def chat_with_document (env : GenAIEnv) (request : ChatRequest) :
    Except HTTPException ChatResponse × List (String × String) :=
  if env.clientOk then
    let prompt := chatPrompt request
    match env.generate modelId prompt with
    | .ok t => (.ok ⟨t⟩, [(modelId, prompt)])
    | .error e =>
        (.error ⟨500, "AI processing failed: A communication error occurred with the Gemini API. Error details: " ++ e⟩,
         [(modelId, prompt)])
  else
    (.error ⟨500, "Gemini API Key is missing or invalid. Check environment variables."⟩, [])

/-- `rewrite_clause` from `main.py`. -/
def rewrite_clause (env : GenAIEnv) (request : RewriteRequest) :
    Except HTTPException RewriteResponse × List (String × String) :=
  if env.clientOk then
    let prompt := rewritePrompt request
    match env.generate modelId prompt with
    | .ok t => (.ok ⟨t⟩, [(modelId, prompt)])
    | .error e => (.error ⟨500, "AI rewriting failed: " ++ e⟩, [(modelId, prompt)])
  else
    (.error ⟨500, "Gemini API Key is missing or invalid."⟩, [])

/-- `personalized_summary` from `main.py`. -/
def personalized_summary (env : GenAIEnv) (request : PersonalizedSummaryRequest) :
    Except HTTPException SummaryResponse × List (String × String) :=
  if env.clientOk then
    let prompt := summaryPrompt request
    match env.generate modelId prompt with
    | .ok t => (.ok ⟨t⟩, [(modelId, prompt)])
    | .error e => (.error ⟨500, "AI summarization failed: " ++ e⟩, [(modelId, prompt)])
  else
    (.error ⟨500, "Gemini API Key is missing or invalid."⟩, [])

/-- `generate_risk_summary` from `main.py`. -/
def generate_risk_summary (env : GenAIEnv) (request : RiskSummaryRequest) :
    Except HTTPException RiskReportResponse × List (String × String) :=
  if env.clientOk then
    let prompt := riskPrompt request
    match env.generate modelId prompt with
    | .ok t => (.ok ⟨t⟩, [(modelId, prompt)])
    | .error e => (.error ⟨500, "AI risk report generation failed: " ++ e⟩, [(modelId, prompt)])
  else
    (.error ⟨500, "Gemini API Key is missing or invalid."⟩, [])

/-- The paragraphs that contribute to the DOCX extraction, per the spec:
those whose text is not blank (non-empty after trimming). -/
def nonBlankParagraphs (paras : List String) : List String :=
  paras.filter (fun p => pyStrip p != "")

/-! ### Helper lemmas about the strip machinery -/

/-- `dropWhile` removes an initial segment: something can be put back in
front to recover the list. -/
theorem exists_append_dropWhile {α : Type} (p : α → Bool) (l : List α) :
    ∃ s, s ++ l.dropWhile p = l := by
  induction l with
  | nil => exact ⟨[], rfl⟩
  | cons a t ih =>
      by_cases h : p a
      · obtain ⟨s, hs⟩ := ih
        exact ⟨a :: s, by simp [List.dropWhile_cons, h, hs]⟩
      · exact ⟨[], by simp [List.dropWhile_cons, h]⟩

/-- The head of `dropWhile p l`, when it exists, does not satisfy `p`. -/
theorem head?_dropWhile_not {α : Type} (p : α → Bool) (l : List α) (c : α)
    (h : (l.dropWhile p).head? = some c) : p c = false := by
  induction l with
  | nil => simp [List.dropWhile] at h
  | cons a t ih =>
      rw [List.dropWhile_cons] at h
      by_cases hpa : p a
      · rw [if_pos hpa] at h
        exact ih h
      · rw [if_neg hpa] at h
        simp only [List.head?_cons, Option.some.injEq] at h
        subst h
        exact Bool.not_eq_true _ ▸ eq_false_of_ne_true hpa

/-- Stripping a list of whitespace characters yields the empty list. -/
theorem stripChars_eq_nil_of_all_ws {l : List Char} (h : l.all wsChar = true) :
    stripChars l = [] := by
  have h1 : lstripChars l = [] := by
    unfold lstripChars
    rw [List.dropWhile_eq_nil_iff]
    intro x hx
    exact List.all_eq_true.mp h x hx
  unfold stripChars
  rw [h1]
  rfl

/-- The first character surviving a strip is not whitespace. -/
theorem stripChars_head_not_ws {l : List Char} {c : Char} {cs : List Char}
    (h : stripChars l = c :: cs) : wsChar c = false := by
  unfold stripChars rstripChars at h
  obtain ⟨s, hs⟩ := exists_append_dropWhile wsChar ((lstripChars l).reverse)
  have h2 := congrArg List.reverse hs
  rw [List.reverse_append, List.reverse_reverse, h] at h2
  have h3 : (List.dropWhile wsChar l).head? = some c := by
    unfold lstripChars at h2
    rw [← h2]
    rfl
  exact head?_dropWhile_not wsChar l c h3

/-- The last character surviving a strip is not whitespace. -/
theorem stripChars_getLast_not_ws {l : List Char} {c : Char}
    (h : (stripChars l).getLast? = some c) : wsChar c = false := by
  unfold stripChars rstripChars at h
  rw [List.getLast?_reverse] at h
  exact head?_dropWhile_not wsChar _ c h

/-- Stripping a whitespace-only string yields the empty string. -/
theorem pyStrip_eq_empty_of_all_ws {s : String} (h : s.data.all wsChar = true) :
    pyStrip s = "" := by
  unfold pyStrip
  rw [stripChars_eq_nil_of_all_ws h]

/-- A non-empty string has length at least one. -/
theorem one_le_length_of_ne_empty {s : String} (h : s ≠ "") : 1 ≤ s.length := by
  cases s with
  | mk data =>
      cases data with
      | nil => exact absurd rfl h
      | cons a t => simp [String.length]

/-- Taking `n` twice is the same as taking `n` once. -/
theorem take_take_self {α : Type} : ∀ (n : Nat) (l : List α),
    (l.take n).take n = l.take n
  | 0, _ => rfl
  | _ + 1, [] => rfl
  | n + 1, a :: t => by simp [List.take_succ_cons, take_take_self n t]

/-- Unfolding equation: PDF extraction on a successful parse. -/
theorem extract_pdf_ok (pages : List (Option String)) :
    extract_text_from_pdf (.ok pages) =
      .ok (pyStrip (String.join ((pages.take 10).map (fun p => p.getD "")))) := rfl

/-- Unfolding equation: PDF extraction on a throwing parse. -/
theorem extract_pdf_err (e : String) :
    extract_text_from_pdf (.error e) =
      .error ⟨500, "PDF extraction error: " ++ e⟩ := rfl

/-- Unfolding equation: DOCX extraction on a successful parse. -/
theorem extract_docx_ok (paras : List String) :
    extract_text_from_docx (.ok paras) =
      .ok (pyStrip (String.intercalate "\n"
        (paras.filter (fun p => pyStrip p != "")))) := rfl

/-- Unfolding equation: DOCX extraction on a throwing parse. -/
theorem extract_docx_err (e : String) :
    extract_text_from_docx (.error e) =
      .error ⟨500, "DOCX extraction error: " ++ e⟩ := rfl

/-- Inversion of a successful upload: the returned record carries the file
name, a non-empty extracted text that is the strip of some character list,
and the length of that text. -/
theorem upload_ok_inv (pp : List Nat → PdfParse) (pd : List Nat → DocxParse)
    (file : UploadedFile) (r : UploadResponse)
    (h : upload_document pp pd file = .ok r) :
    r.extracted_text ≠ "" ∧ r.text_length = r.extracted_text.length ∧
    ∃ l : List Char, r.extracted_text = String.mk (stripChars l) := by
  simp only [upload_document] at h
  split at h
  · exact absurd h (by simp)
  · next t heq =>
      split at h
      · exact absurd h (by simp)
      · next hne =>
          have hr : r = ⟨file.filename, t, t.length⟩ := by
            simp only [Except.ok.injEq] at h
            exact h.symm
          subst hr
          refine ⟨hne, rfl, ?_⟩
          split at heq
          · cases hp : pp file.content with
            | error e => rw [hp, extract_pdf_err] at heq; exact absurd heq (by simp)
            | ok pages =>
                rw [hp, extract_pdf_ok] at heq
                simp only [Except.ok.injEq] at heq
                exact ⟨_, heq.symm⟩
          · split at heq
            · cases hp : pd file.content with
              | error e => rw [hp, extract_docx_err] at heq; exact absurd heq (by simp)
              | ok paras =>
                  rw [hp, extract_docx_ok] at heq
                  simp only [Except.ok.injEq] at heq
                  exact ⟨_, heq.symm⟩
            · exact absurd heq (by simp)

/-! ### Claims about `/upload/` and the extractors -/

/-- Claim C1, counterexample: a PDF whose parse throws yields HTTP 500, not
the HTTP 400 the claim states. -/
theorem extraction_error_counterexample :
    errorStatus (upload_document (fun _ => .error "boom") (fun _ => .ok [])
      ⟨"lease.pdf", "application/pdf", []⟩) = some 500 ∧
    errorStatus (upload_document (fun _ => .error "boom") (fun _ => .ok [])
      ⟨"lease.pdf", "application/pdf", []⟩) ≠ some 400 := by decide

/-- Claim C1 (amended): for every uploaded PDF or DOCX whose parsing
throws, the extraction operation fails with ExtractionError surfaced to the
caller as HTTP 500, carrying a detail that wraps the underlying
exception message. -/
theorem extraction_error_maps_to_500 (pp : List Nat → PdfParse)
    (pd : List Nat → DocxParse) (file : UploadedFile) (e : String) :
    (file.content_type = "application/pdf" → pp file.content = .error e →
      upload_document pp pd file = .error ⟨500, "PDF extraction error: " ++ e⟩) ∧
    (file.content_type = docxMime → pd file.content = .error e →
      upload_document pp pd file = .error ⟨500, "DOCX extraction error: " ++ e⟩) := by
  constructor
  · intro hm hp
    simp only [upload_document]
    rw [if_pos hm, hp, extract_pdf_err]
  · intro hm hp
    simp only [upload_document]
    rw [hm, if_neg (by decide), if_pos rfl, hp, extract_docx_err]

/-- Claim C1 (amended), witness at a concrete throwing PDF parse. -/
theorem extraction_error_maps_to_500_witness :
    upload_document (fun _ => .error "boom") (fun _ => .ok [])
      ⟨"lease.pdf", "application/pdf", []⟩ =
      .error ⟨500, "PDF extraction error: boom"⟩ :=
  (extraction_error_maps_to_500 (fun _ => .error "boom") (fun _ => .ok [])
    ⟨"lease.pdf", "application/pdf", []⟩ "boom").1 rfl rfl

/-- Claim C2: a declared MIME type that is neither PDF nor DOCX is rejected
with HTTP 400 and the handler's fixed detail, whatever the parse oracles
would have returned (extraction is never attempted). -/
theorem upload_unsupported_type_400 (pp : List Nat → PdfParse)
    (pd : List Nat → DocxParse) (file : UploadedFile)
    (h1 : file.content_type ≠ "application/pdf")
    (h2 : file.content_type ≠ docxMime) :
    upload_document pp pd file =
      .error ⟨400, "Invalid file type. Only PDF and DOCX are supported for this MVP."⟩ := by
  simp only [upload_document]
  rw [if_neg h1, if_neg h2]

/-- Claim C2, witness at a concrete text/plain upload. -/
theorem upload_unsupported_type_400_witness :
    upload_document (fun _ => .error "x") (fun _ => .error "x")
      ⟨"notes.txt", "text/plain", []⟩ =
      .error ⟨400, "Invalid file type. Only PDF and DOCX are supported for this MVP."⟩ :=
  upload_unsupported_type_400 _ _ _ (by decide) (by decide)

/-- Claim C3: when the parse succeeds but the text accumulated from the
document is whitespace-only (so it trims to empty), the handler fails with
HTTP 400 and the empty-content detail, returning no extraction result. -/
theorem upload_empty_content_400 (pp : List Nat → PdfParse)
    (pd : List Nat → DocxParse) (file : UploadedFile)
    (h : (file.content_type = "application/pdf" ∧ ∃ pages,
            pp file.content = .ok pages ∧
            (String.join ((pages.take 10).map (fun p => p.getD ""))).data.all wsChar = true)
       ∨ (file.content_type = docxMime ∧ ∃ paras,
            pd file.content = .ok paras ∧
            (String.intercalate "\n"
              (paras.filter (fun p => pyStrip p != ""))).data.all wsChar = true)) :
    upload_document pp pd file =
      .error ⟨400, "Could not extract text from the document."⟩ := by
  simp only [upload_document]
  rcases h with ⟨hm, pages, hp, hws⟩ | ⟨hm, paras, hp, hws⟩
  · rw [if_pos hm, hp, extract_pdf_ok, pyStrip_eq_empty_of_all_ws hws]
    rfl
  · rw [hm, if_neg (by decide), if_pos rfl, hp, extract_docx_ok,
      pyStrip_eq_empty_of_all_ws hws]
    rfl

/-- Claim C3, witness at a PDF whose only page text is a single space. -/
theorem upload_empty_content_400_witness :
    upload_document (fun _ => .ok [some " ", none]) (fun _ => .ok [])
      ⟨"blank.pdf", "application/pdf", []⟩ =
      .error ⟨400, "Could not extract text from the document."⟩ :=
  upload_empty_content_400 _ _ _
    (Or.inl ⟨rfl, [some " ", none], rfl, by decide⟩)

/-- Claim C5: a successful upload response reports as `text_length` exactly
the character count of its `extracted_text`. -/
theorem upload_text_length_matches (pp : List Nat → PdfParse)
    (pd : List Nat → DocxParse) (file : UploadedFile) (r : UploadResponse)
    (h : upload_document pp pd file = .ok r) :
    r.text_length = r.extracted_text.length :=
  (upload_ok_inv pp pd file r h).2.1

/-- Claim C5, witness at a concrete one-page PDF. -/
theorem upload_text_length_matches_witness :
    (UploadResponse.mk "lease.pdf" "hello" 5).text_length =
      (UploadResponse.mk "lease.pdf" "hello" 5).extracted_text.length :=
  upload_text_length_matches (fun _ => .ok [some "hello"]) (fun _ => .ok [])
    ⟨"lease.pdf", "application/pdf", []⟩ ⟨"lease.pdf", "hello", 5⟩ (by decide)

/-- Claim C10: a successful upload response carries a non-empty extracted
text with no leading or trailing whitespace, and a length of at least 1. -/
theorem upload_extracted_trimmed (pp : List Nat → PdfParse)
    (pd : List Nat → DocxParse) (file : UploadedFile) (r : UploadResponse)
    (h : upload_document pp pd file = .ok r) :
    r.extracted_text ≠ "" ∧
    (∀ c, r.extracted_text.data.head? = some c → c.isWhitespace = false) ∧
    (∀ c, r.extracted_text.data.getLast? = some c → c.isWhitespace = false) ∧
    1 ≤ r.text_length := by
  obtain ⟨hne, hlen, l, hl⟩ := upload_ok_inv pp pd file r h
  refine ⟨hne, ?_, ?_, ?_⟩
  · intro c hc
    rw [hl] at hc
    change (stripChars l).head? = some c at hc
    cases hsl : stripChars l with
    | nil => rw [hsl] at hc; exact absurd hc (by simp)
    | cons a tl =>
        rw [hsl] at hc
        simp only [List.head?_cons, Option.some.injEq] at hc
        subst hc
        exact stripChars_head_not_ws hsl
  · intro c hc
    rw [hl] at hc
    change (stripChars l).getLast? = some c at hc
    exact stripChars_getLast_not_ws hc
  · rw [hlen]
    exact one_le_length_of_ne_empty hne

/-- Claim C10, witness at a concrete one-page PDF. -/
theorem upload_extracted_trimmed_witness :
    ("hello" : String) ≠ "" ∧
    (∀ c, ("hello" : String).data.head? = some c → c.isWhitespace = false) ∧
    (∀ c, ("hello" : String).data.getLast? = some c → c.isWhitespace = false) ∧
    1 ≤ 5 :=
  upload_extracted_trimmed (fun _ => .ok [some "hello"]) (fun _ => .ok [])
    ⟨"lease.pdf", "application/pdf", []⟩ ⟨"lease.pdf", "hello", 5⟩ (by decide)

/-- The eleven-page PDF used to refute the literal concatenation reading of
claim C4: the first page text carries leading whitespace. -/
def elevenPages : List (Option String) :=
  [some " a", some "", some "", some "", some "", some "", some "", some "",
   some "", some "", some "z"]

/-- Claim C4, counterexample: with eleven pages whose first page text is
`" a"`, the extractor returns `"a"`, which is not the concatenation of the
per-page text of pages 1 through 10 (that concatenation is `" a"`): the
result is additionally stripped of leading/trailing whitespace. -/
theorem pdf_concat_counterexample :
    okText (extract_text_from_pdf (.ok elevenPages)) = some "a" ∧
    okText (extract_text_from_pdf (.ok elevenPages)) ≠
      some (String.join ((elevenPages.take 10).map (fun p => p.getD ""))) := by
  decide

/-- Claim C4 (amended): the PDF extractor reads at most the first 10 pages
— dropping the pages beyond the tenth never changes the result — and the
result is the concatenation of the per-page extracted text of pages 1
through 10, trimmed of leading and trailing whitespace. -/
theorem pdf_first_ten_pages (pages : List (Option String)) :
    extract_text_from_pdf (.ok pages) =
      extract_text_from_pdf (.ok (pages.take 10)) ∧
    extract_text_from_pdf (.ok pages) =
      .ok (pyStrip (String.join ((pages.take 10).map (fun p => p.getD "")))) := by
  constructor
  · rw [extract_pdf_ok, extract_pdf_ok, take_take_self]
  · exact extract_pdf_ok pages

/-- Claim C9, counterexample: with the single non-blank paragraph `" a"`,
the extracted text is `"a"`, not the concatenation of the non-blank
paragraph texts (which is `" a"`): the join is additionally stripped. -/
theorem docx_concat_counterexample :
    okText (extract_text_from_docx (.ok [" a"])) = some "a" ∧
    okText (extract_text_from_docx (.ok [" a"])) ≠
      some (String.intercalate "\n" (nonBlankParagraphs [" a"])) := by
  decide

/-- Claim C9 (amended): for a DOCX that parses, the extracted text is the
newline-join of exactly the non-blank paragraph texts in their original
order (an order-preserving sublist of the paragraphs containing all the
non-blank ones and none of the blank ones), trimmed of leading and trailing
whitespace. -/
theorem docx_nonblank_join (paras : List String) :
    extract_text_from_docx (.ok paras) =
      .ok (pyStrip (String.intercalate "\n" (nonBlankParagraphs paras))) ∧
    (nonBlankParagraphs paras).Sublist paras ∧
    (∀ p, p ∈ nonBlankParagraphs paras → pyStrip p ≠ "") ∧
    (∀ p, p ∈ paras → pyStrip p ≠ "" → p ∈ nonBlankParagraphs paras) := by
  refine ⟨rfl, List.filter_sublist paras, ?_, ?_⟩
  · intro p hp
    have hm := List.mem_filter.mp hp
    simpa using hm.2
  · intro p hp hne
    exact List.mem_filter.mpr ⟨hp, by simpa using hne⟩

/-! ### Claims about the prompt builder and the LLM-backed handlers -/

/-- Claim C6: the prompt builder is deterministic — for each of the four
task kinds, two requests with identical inputs render the same instruction
string. -/
theorem prompt_builder_deterministic :
    (∀ r₁ r₂ : ChatRequest, r₁.document_text = r₂.document_text →
      r₁.question = r₂.question → chatPrompt r₁ = chatPrompt r₂) ∧
    (∀ r₁ r₂ : RewriteRequest, r₁.clause_text = r₂.clause_text →
      rewritePrompt r₁ = rewritePrompt r₂) ∧
    (∀ r₁ r₂ : PersonalizedSummaryRequest, r₁.document_text = r₂.document_text →
      r₁.user_role = r₂.user_role → summaryPrompt r₁ = summaryPrompt r₂) ∧
    (∀ r₁ r₂ : RiskSummaryRequest, r₁.document_text = r₂.document_text →
      r₁.user_role = r₂.user_role → riskPrompt r₁ = riskPrompt r₂) := by
  refine ⟨?_, ?_, ?_, ?_⟩
  · intro r₁ r₂ h1 h2
    have hr : r₁ = r₂ := by cases r₁; cases r₂; simp_all
    rw [hr]
  · intro r₁ r₂ h1
    have hr : r₁ = r₂ := by cases r₁; cases r₂; simp_all
    rw [hr]
  · intro r₁ r₂ h1 h2
    have hr : r₁ = r₂ := by cases r₁; cases r₂; simp_all
    rw [hr]
  · intro r₁ r₂ h1 h2
    have hr : r₁ = r₂ := by cases r₁; cases r₂; simp_all
    rw [hr]

/-- Claim C6, witness at identical concrete chat inputs. -/
theorem prompt_builder_deterministic_witness :
    chatPrompt ⟨"the doc", "the question"⟩ = chatPrompt ⟨"the doc", "the question"⟩ :=
  prompt_builder_deterministic.1 ⟨"the doc", "the question"⟩
    ⟨"the doc", "the question"⟩ rfl rfl

/-- Claim C7, counterexample: with the client unavailable, the chat handler
and the rewrite handler both answer HTTP 500, but with different detail
messages, so the message is not the same for every such request. -/
theorem config_error_message_counterexample :
    errorStatus (chat_with_document ⟨false, fun _ _ => .error "x"⟩ ⟨"d", "q"⟩).1 = some 500 ∧
    errorStatus (rewrite_clause ⟨false, fun _ _ => .error "x"⟩ ⟨"c"⟩).1 = some 500 ∧
    errorDetail (chat_with_document ⟨false, fun _ _ => .error "x"⟩ ⟨"d", "q"⟩).1 ≠
      errorDetail (rewrite_clause ⟨false, fun _ _ => .error "x"⟩ ⟨"c"⟩).1 := by
  decide

/-- Claim C7 (amended): whenever obtaining the client handle fails, each
LLM-backed handler fails with HTTP 500 and a fixed detail independent of
the request and of the generation oracle (so the message is stable per
handler), without making any generation call; the chat handler's message
differs from the one shared by the other three handlers. -/
theorem config_error_stable_per_handler (env : GenAIEnv)
    (h : env.clientOk = false) :
    (∀ r : ChatRequest, chat_with_document env r =
      (.error ⟨500, "Gemini API Key is missing or invalid. Check environment variables."⟩, [])) ∧
    (∀ r : RewriteRequest, rewrite_clause env r =
      (.error ⟨500, "Gemini API Key is missing or invalid."⟩, [])) ∧
    (∀ r : PersonalizedSummaryRequest, personalized_summary env r =
      (.error ⟨500, "Gemini API Key is missing or invalid."⟩, [])) ∧
    (∀ r : RiskSummaryRequest, generate_risk_summary env r =
      (.error ⟨500, "Gemini API Key is missing or invalid."⟩, [])) ∧
    "Gemini API Key is missing or invalid. Check environment variables." ≠
      "Gemini API Key is missing or invalid." := by
  refine ⟨?_, ?_, ?_, ?_, by decide⟩
  · intro r
    simp [chat_with_document, h]
  · intro r
    simp [rewrite_clause, h]
  · intro r
    simp [personalized_summary, h]
  · intro r
    simp [generate_risk_summary, h]

/-- Claim C7 (amended), witness at a concrete client failure. -/
theorem config_error_stable_witness :
    chat_with_document ⟨false, fun _ _ => .error "x"⟩ ⟨"d", "q"⟩ =
      (.error ⟨500, "Gemini API Key is missing or invalid. Check environment variables."⟩, []) :=
  (config_error_stable_per_handler ⟨false, fun _ _ => .error "x"⟩ rfl).1 ⟨"d", "q"⟩

/-- Claim C8: when the generation call fails, each handler sends exactly
one `(model, prompt)` call to the generation API and returns HTTP 500 with
a detail that carries the underlying failure message. -/
theorem upstream_failure_wrapped_once (env : GenAIEnv) (e : String)
    (h : env.clientOk = true) :
    (∀ r : ChatRequest, env.generate modelId (chatPrompt r) = .error e →
      chat_with_document env r =
        (.error ⟨500, "AI processing failed: A communication error occurred with the Gemini API. Error details: " ++ e⟩,
         [(modelId, chatPrompt r)])) ∧
    (∀ r : RewriteRequest, env.generate modelId (rewritePrompt r) = .error e →
      rewrite_clause env r =
        (.error ⟨500, "AI rewriting failed: " ++ e⟩, [(modelId, rewritePrompt r)])) ∧
    (∀ r : PersonalizedSummaryRequest,
      env.generate modelId (summaryPrompt r) = .error e →
      personalized_summary env r =
        (.error ⟨500, "AI summarization failed: " ++ e⟩, [(modelId, summaryPrompt r)])) ∧
    (∀ r : RiskSummaryRequest, env.generate modelId (riskPrompt r) = .error e →
      generate_risk_summary env r =
        (.error ⟨500, "AI risk report generation failed: " ++ e⟩, [(modelId, riskPrompt r)])) := by
  refine ⟨?_, ?_, ?_, ?_⟩
  · intro r hg
    simp [chat_with_document, h, hg]
  · intro r hg
    simp [rewrite_clause, h, hg]
  · intro r hg
    simp [personalized_summary, h, hg]
  · intro r hg
    simp [generate_risk_summary, h, hg]

/-- Claim C8, witness at a concrete upstream failure of the chat call. -/
theorem upstream_failure_wrapped_once_witness :
    chat_with_document ⟨true, fun _ _ => .error "quota"⟩ ⟨"d", "q"⟩ =
      (.error ⟨500, "AI processing failed: A communication error occurred with the Gemini API. Error details: quota"⟩,
       [(modelId, chatPrompt ⟨"d", "q"⟩)]) :=
  (upstream_failure_wrapped_once ⟨true, fun _ _ => .error "quota"⟩ "quota" rfl).1
    ⟨"d", "q"⟩ rfl
